import Mathlib

/-!
Shallow embedding of the email-ai-categorizer repository.

Components modelled from the source:
* `src/api/services/gmail_parser.py` — the Content Normalizer (`GmailParser.parse_email`
  and its helpers), including the module's import list (the module imports `re`,
  `logging`, `typing`, `bs4`, `html`, but not `os`).
* `src/api/services/ai_service.py` — the 4-way Decision Engine (`AIService.categorize_email`),
  with the remote Gemini call treated as an opaque parameter.
* `src/backend/services/ai_service.py` — the 12-way Decision Engine with statistics,
  with the remote OpenAI/Gemini calls treated as opaque parameters.
* The deterministic keyword fallback strategy is modelled from the spec (its code is
  not under src/); see `keywordCategorize`.

Conventions: Python strings are Lean `String`s (operating on `.data`, the list of
characters); Python floats are modelled as exact rationals `ℚ`; Python exceptions are
`Except PyErr`; character case operations are modelled for the ASCII range.
-/

/-- Python exception values that the modelled code can raise. -/
inductive PyErr where
  | nameError (id : String)
  | typeError (msg : String)
  | valueError (msg : String)
deriving DecidableEq, Repr

/-- A value stored in the parser's feature dictionary (Python `Dict[str, Any]`
restricted to the value shapes the source actually stores: ints, bools, strings). -/
inductive FVal where
  | n (k : Int)
  | b (v : Bool)
  | s (v : String)
deriving DecidableEq, Repr

/-- Python truthiness of a feature value (`if features.get(...)`). -/
def pyTruthy : FVal → Bool
  | .n k => k != 0
  | .b v => v
  | .s v => v != ""

/-- Python `int(value)` coercion as used by `<` on a feature value: ints and bools
are numbers (True is 1), a string on the left of `< 50` raises TypeError. -/
def fvalToInt : FVal → Except PyErr Int
  | .n k => .ok k
  | .b v => .ok (if v then 1 else 0)
  | .s _ => .error (.typeError "str and int comparison")

/-- Python `dict.get(key, default)` over an association list. -/
def dictGet (d : List (String × FVal)) (key : String) (default : FVal) : FVal :=
  match d.find? (fun p => p.1 == key) with
  | some p => p.2
  | none => default

/-- Python `\s` on ASCII input: the whitespace characters recognised by
`str.split`, `str.strip` and the `\s` regex class. -/
def pythonIsSpace (c : Char) : Bool :=
  c = ' ' || c = '\t' || c = '\n' || c = '\r' || c = '\x0b' || c = '\x0c'

/-- Python `str.strip()` on a character list. -/
def pyStripL (l : List Char) : List Char :=
  ((l.dropWhile pythonIsSpace).reverse.dropWhile pythonIsSpace).reverse

/-- Python `str.strip()`. -/
def pyStripS (s : String) : String :=
  String.mk (pyStripL s.data)

/-- Python `str.lower()` (ASCII range). -/
def pyLowerS (s : String) : String :=
  String.mk (s.data.map Char.toLower)

/-- Python `c in s` for a single character. -/
def strHasChar (s : String) (c : Char) : Bool :=
  s.data.contains c

/-- Does predicate `p` hold of some suffix of `l` (i.e. at some scan position)?
This is the skeleton of `re.search` for the patterns modelled below. -/
def scanAny (p : List Char → Bool) : List Char → Bool
  | [] => p []
  | c :: rest => p (c :: rest) || scanAny p rest

/-- Scan over all positions carrying the previous character (used for the `\b`
word-boundary checks of `re.search`). -/
def scanAnyB (p : Option Char → List Char → Bool) : Option Char → List Char → Bool
  | prev, [] => p prev []
  | prev, c :: rest => p prev (c :: rest) || scanAnyB p (some c) rest

/-- Python `needle in hay` (substring test) on character lists. -/
def containsSubL (hay needle : List Char) : Bool :=
  scanAny (fun l => needle.isPrefixOf l) hay

/-- Python `needle in hay` (substring test). -/
def containsSubS (hay needle : String) : Bool :=
  containsSubL hay.data needle.data

/-- Case-insensitive "starts with" check, as performed by an `IGNORECASE`
anchored regex alternative. -/
def startsWithCI (pat : String) (l : List Char) : Bool :=
  pat.data.isPrefixOf (l.map Char.toLower)

/-- Word character for Python's `\b` boundary (`[A-Za-z0-9_]` on ASCII input). -/
def isWordChar (c : Char) : Bool :=
  c.isAlpha || c.isDigit || c = '_'

/-- A `\b` boundary holds before the current position when there is no previous
character or the previous character is not a word character (the patterns below
only apply `\b` right before a word character). -/
def isBoundary : Option Char → Bool
  | none => true
  | some p => !isWordChar p

/-- Hexadecimal digit, for `&#x...;` character references. -/
def isHexDigitChar (c : Char) : Bool :=
  c.isDigit || ('a' ≤ c && c ≤ 'f') || ('A' ≤ c && c ≤ 'F')

def hexVal (c : Char) : Nat :=
  if c.isDigit then c.toNat - '0'.toNat
  else if 'a' ≤ c && c ≤ 'f' then c.toNat - 'a'.toNat + 10
  else c.toNat - 'A'.toNat + 10

def decodeDecimal (ds : List Char) : Nat :=
  ds.foldl (fun n c => n * 10 + (c.toNat - '0'.toNat)) 0

def decodeHex (ds : List Char) : Nat :=
  ds.foldl (fun n c => n * 16 + hexVal c) 0

/-- Conversion of a numeric character reference to a character, following the
stdlib `html.unescape` replacement: invalid/surrogate/overflow code points give
U+FFFD. (The CPython per-codepoint remap tables for the 0x80–0x9F range are not
reproduced; no theorem below depends on them.) -/
def charFromCodepoint (n : Nat) : Char :=
  if n = 0 then '�'
  else if n < 0xD800 then Char.ofNat n
  else if n ≤ 0xDFFF then '�'
  else if n ≤ 0x10FFFF then Char.ofNat n
  else '�'

/-- The named entities recognised by the model of stdlib `html.unescape`,
longest-first so that the longest-matching-name rule of the stdlib is
reproduced. This is the common-entity subset of the html5 table (unknown names
are left undecoded, as the stdlib does for names absent from its table). -/
def namedEntities : List (String × String) :=
  [("quot;", "\""), ("apos;", "'"), ("nbsp;", " "), ("amp;", "&"),
   ("quot", "\""), ("nbsp", " "), ("amp", "&"),
   ("lt;", "<"), ("gt;", ">"), ("lt", "<"), ("gt", ">")]

def matchNamedRef : List (String × String) → List Char → Option (List Char × Nat)
  | [], _ => none
  | (name, repl) :: tbl, l =>
      if name.data.isPrefixOf l then some (repl.data, name.data.length)
      else matchNamedRef tbl l

/-- Attempt to decode one character reference right after a `&`. Returns the
decoded characters and the number of input characters consumed after the `&`. -/
def matchCharref : List Char → Option (List Char × Nat)
  | '#' :: 'x' :: rest =>
      let hs := rest.takeWhile isHexDigitChar
      if hs.isEmpty then none
      else some ([charFromCodepoint (decodeHex hs)],
        2 + hs.length + (if (rest.drop hs.length).head? = some ';' then 1 else 0))
  | '#' :: 'X' :: rest =>
      let hs := rest.takeWhile isHexDigitChar
      if hs.isEmpty then none
      else some ([charFromCodepoint (decodeHex hs)],
        2 + hs.length + (if (rest.drop hs.length).head? = some ';' then 1 else 0))
  | '#' :: rest =>
      let ds := rest.takeWhile Char.isDigit
      if ds.isEmpty then none
      else some ([charFromCodepoint (decodeDecimal ds)],
        1 + ds.length + (if (rest.drop ds.length).head? = some ';' then 1 else 0))
  | l => matchNamedRef namedEntities l

/-- Fuel-indexed scan decoding character references; the fuel (initialised to the
input length) dominates the number of steps, each of which consumes at least one
character. -/
def unescapeGo : Nat → List Char → List Char
  | 0, l => l
  | _ + 1, [] => []
  | fuel + 1, '&' :: rest =>
      match matchCharref rest with
      | some (dec, k) => dec ++ unescapeGo fuel (rest.drop k)
      | none => '&' :: unescapeGo fuel rest
  | fuel + 1, c :: rest => c :: unescapeGo fuel rest

/-- Stdlib `html.unescape`, including its fast path: a string without `&` is
returned unchanged. -/
def htmlUnescapeS (s : String) : String :=
  if strHasChar s '&' then String.mk (unescapeGo s.data.length s.data) else s

/-- Python `' '.join(s.split())`: collapse whitespace runs to single spaces and
trim (as in `GmailParser._clean_subject`). -/
def collapseWsS (s : String) : String :=
  String.mk (List.intercalate [' ']
    ((s.data.splitOnP pythonIsSpace).filter (fun w => !w.isEmpty)))

/-- One pass of `re.sub(r'^(Re|Fwd|FW|RE|FWD):\s*', '', subject, flags=re.IGNORECASE)`
on a character list: the pattern is anchored, so at most one leading prefix is
removed, together with the whitespace following it. -/
def stripReplyTagL (l : List Char) : List Char :=
  if startsWithCI "re:" l then (l.drop 3).dropWhile pythonIsSpace
  else if startsWithCI "fwd:" l then (l.drop 4).dropWhile pythonIsSpace
  else if startsWithCI "fw:" l then (l.drop 3).dropWhile pythonIsSpace
  else l

def stripReplyTagS (s : String) : String :=
  String.mk (stripReplyTagL s.data)

/-- Does the subject start with one of the reply/forward markers (the condition
under which the anchored regex above matches)? -/
def startsWithReplyTag (s : String) : Bool :=
  startsWithCI "re:" s.data || startsWithCI "fwd:" s.data || startsWithCI "fw:" s.data

/-- `GmailParser._clean_subject`: empty subject short-circuits; otherwise strip
one reply/forward prefix, collapse whitespace, decode HTML entities, trim. -/
def cleanSubject (subject : String) : String :=
  if subject = "" then ""
  else pyStripS (htmlUnescapeS (collapseWsS (stripReplyTagS subject)))

/-- `re.search(r'<([^>]+)>', sender)`: first angle-bracketed group with a
non-empty body, scanning left to right. -/
def findAngleGroup : List Char → Option (List Char)
  | [] => none
  | '<' :: rest =>
      let run := rest.takeWhile (fun c => c != '>')
      if run.isEmpty || (rest.drop run.length).isEmpty then findAngleGroup rest
      else some run
  | _ :: rest => findAngleGroup rest

/-- `GmailParser._clean_sender`: extract the address from `"Name <addr>"` if an
angle-bracketed group is present (then strip and lower-case it); otherwise strip,
lower-case and delete any remaining angle brackets. -/
def cleanSender (sender : String) : String :=
  if sender = "" then ""
  else
    match findAngleGroup sender.data with
    | some grp => pyLowerS (pyStripS (String.mk grp))
    | none =>
        let t := pyLowerS (pyStripS sender)
        String.mk (t.data.filter (fun c => !(c = '<' || c = '>')))

/-- The global names bound at module level in `src/api/services/gmail_parser.py`
(lines 6–12 and the module-level definitions). `os` is not among them: the
module never imports `os` (only the standalone `clean_email_text` does a
function-local `import os`, which does not bind a module global). -/
def gmailParserGlobals : List String :=
  ["re", "logging", "Dict", "Any", "Optional", "BeautifulSoup", "html",
   "logger", "GmailParser", "clean_email_text"]

/-- Python name resolution in the `gmail_parser` module: a name that is neither
a module global nor a builtin raises `NameError`. -/
def resolveGmailParserName (id : String) : Except PyErr Unit :=
  if id ∈ gmailParserGlobals then .ok () else .error (.nameError id)

/-- `GmailParser._clean_body`: an empty body returns `''` before any processing.
For a non-empty body, lines 129–153 compute a cleaned text by pure, non-raising
string operations (BeautifulSoup extraction guarded by its own try/except,
`html.unescape`, whitespace collapsing, signature-pattern removal); that value is
dead code, because line 156 `max_length = int(os.getenv('MAX_EMAIL_LENGTH', 10000))`
is evaluated before the function returns and the name `os` does not resolve in
this module (see `gmailParserGlobals`), raising `NameError`. The `.ok` branch of
the match is therefore unreachable. -/
def cleanBody (body : String) : Except PyErr String :=
  if body = "" then .ok ""
  else
    match resolveGmailParserName "os" with
    | .ok _ => .ok body
    | .error e => .error e

/-- Position check for `re.search(r'\$[\d,]+|\b\d+\s*(?:dollars?|usd|eur|gbp)', body, re.IGNORECASE)`
(applied to the lower-cased body): either a `$` directly followed by a digit or
comma, or, at a word boundary, digits then optional whitespace then a currency
word. -/
def moneyAt (prev : Option Char) : List Char → Bool
  | [] => false
  | c :: rest =>
      if c = '$' then
        match rest with
        | d :: _ => d.isDigit || d = ','
        | [] => false
      else if c.isDigit && isBoundary prev then
        let r1 := (c :: rest).dropWhile Char.isDigit
        let r2 := r1.dropWhile pythonIsSpace
        "dollar".data.isPrefixOf r2 || "usd".data.isPrefixOf r2 ||
          "eur".data.isPrefixOf r2 || "gbp".data.isPrefixOf r2
      else false

def containsMoney (body : String) : Bool :=
  scanAnyB moneyAt none (pyLowerS body).data

/-- Match one or two digits followed by a dash-or-slash separator starting here
(the `\d{1,2}` then separator step of the numeric date regex), continuing with
`next` on the remainder: the regex tries two digits first, then one. -/
def digitsSep (next : List Char → Bool) (l : List Char) : Bool :=
  (match l with
   | d1 :: d2 :: s :: rest =>
       d1.isDigit && d2.isDigit && (s = '-' || s = '/') && next rest
   | _ => false) ||
  (match l with
   | d1 :: s :: rest => d1.isDigit && (s = '-' || s = '/') && next rest
   | _ => false)

/-- Final `\d{2,4}` of the numeric date pattern: at least two digits follow. -/
def twoDigits : List Char → Bool
  | d1 :: d2 :: _ => d1.isDigit && d2.isDigit
  | _ => false

/-- Position check for the `contains_dates` regex search of the source (a
numeric date `\d{1,2}` separator `\d{1,2}` separator `\d{2,4}` at a word
boundary, where the separator class is dash-or-slash, or a month-name
abbreviation at a word boundary; `IGNORECASE`, applied to the lower-cased
body). -/
def dateAt (prev : Option Char) (l : List Char) : Bool :=
  isBoundary prev &&
    (digitsSep (digitsSep twoDigits) l ||
      (["jan", "feb", "mar", "apr", "may", "jun", "jul", "aug", "sep", "oct",
        "nov", "dec"].any (fun m => m.data.isPrefixOf l)))

def containsDates (body : String) : Bool :=
  scanAnyB dateAt none (pyLowerS body).data

/-- Substring after the last `@`, i.e. Python `sender.split('@')[-1]`. -/
def afterLastAt (sender : String) : String :=
  String.mk ((sender.data.reverse.takeWhile (fun c => c != '@')).reverse)

def commonDomains : List String :=
  ["gmail.com", "yahoo.com", "hotmail.com", "outlook.com", "icloud.com"]

/-- `GmailParser._extract_features`, building the feature dictionary in the
source's insertion order. -/
def extractFeatures (subject sender body : String) : List (String × FVal) :=
  let senderDomain := if strHasChar sender '@' then afterLastAt sender else ""
  let urgentText := pyLowerS (subject ++ body)
  let lowBody := pyLowerS body
  [("subject_length", .n subject.length),
   ("has_urgent", .b (containsSubS urgentText "urgent" || containsSubS urgentText "important" ||
      containsSubS urgentText "asap" || containsSubS urgentText "emergency")),
   ("has_question", .b (strHasChar subject '?' || strHasChar body '?')),
   ("is_reply", .b (startsWithCI "re:" subject.data || startsWithCI "fwd:" subject.data ||
      startsWithCI "fw:" subject.data)),
   ("sender_domain", .s senderDomain),
   ("is_common_domain", .b (commonDomains.contains senderDomain)),
   ("body_length", .n body.length),
   ("has_links", .b (containsSubS body "http://" || containsSubS body "https://")),
   ("has_attachments", .b (containsSubS lowBody "attachment" || containsSubS lowBody "attached")),
   ("contains_money", .b (containsMoney body)),
   ("contains_dates", .b (containsDates body))]

/-- Check of the mojibake pattern `r'Â© \d{4}.*'` at one scan position (the
pattern is searched without `IGNORECASE` over the lower-cased content). -/
def copyrightAt : List Char → Bool
  | 'Â' :: '©' :: ' ' :: d1 :: d2 :: d3 :: d4 :: _ =>
      d1.isDigit && d2.isDigit && d3.isDigit && d4.isDigit
  | _ => false

def promotionalWords : List String :=
  ["deal", "offer", "discount", "sale", "free", "buy now", "limited time"]

/-- `GmailParser._is_promotional`: a fixed pattern list over the lower-cased
`subject + ' ' + body`, else at least two promotional words. -/
def isPromotional (subject body : String) : Bool :=
  let content := pyLowerS (subject ++ " " ++ body)
  if containsSubS content "unsubscribe" then true
  else if containsSubS content "click here to unsubscribe" then true
  else if containsSubS content "privacy policy" then true
  else if containsSubS content "terms of service" then true
  else if scanAny copyrightAt content.data then true
  else decide (((promotionalWords.filter (fun w => containsSubS content w)).length) ≥ 2)

/-- `GmailParser._calculate_priority_score`: the additive heuristic over the
feature dictionary, clamped to [0, 1]; reading `subject_length` compares it to
50 with `<`, which raises `TypeError` on a string value. Floats are modelled as
exact rationals. -/
def calculatePriorityScore (features : List (String × FVal)) : Except PyErr ℚ :=
  let s1 : ℚ := if pyTruthy (dictGet features "has_urgent" (.b false)) then 3/10 else 0
  let s2 : ℚ := if pyTruthy (dictGet features "has_question" (.b false)) then s1 + 2/10 else s1
  let s3 : ℚ := if pyTruthy (dictGet features "contains_money" (.b false)) then s2 + 2/10 else s2
  match fvalToInt (dictGet features "subject_length" (.n 0)) with
  | .error e => .error e
  | .ok slen =>
      let s4 : ℚ := if slen < 50 then s3 + 1/10 else s3
      let s5 : ℚ := if pyTruthy (dictGet features "is_common_domain" (.b false)) then s4 - 1/10 else s4
      .ok (max 0 (min 1 s5))

/-- The normalized email record returned by `GmailParser.parse_email`. -/
structure EmailRecord where
  subject : String
  sender : String
  body : String
  features : List (String × FVal)
  is_promotional : Bool
  priority_score : ℚ
deriving DecidableEq, Repr

/-- Python `body or snippet`. -/
def pyOrStr (a b : String) : String :=
  if a = "" then b else a

/-- The `try` block of `GmailParser.parse_email` (lines 53–77): any exception
raised by a step propagates to the handler. -/
def parseEmailInner (subject sender body snippet : String) : Except PyErr EmailRecord :=
  let cleanSubj := cleanSubject subject
  let cleanSend := cleanSender sender
  match cleanBody body with
  | .error e => .error e
  | .ok cleanBody0 =>
      let theBody := if cleanBody0 = "" && snippet != "" then snippet else cleanBody0
      let features := extractFeatures cleanSubj cleanSend theBody
      match calculatePriorityScore features with
      | .error e => .error e
      | .ok score =>
          .ok { subject := cleanSubj, sender := cleanSend, body := theBody,
                features := features,
                is_promotional := isPromotional cleanSubj theBody,
                priority_score := score }

/-- The `except` handler of `GmailParser.parse_email` (lines 79–88): the
best-effort record built from the raw inputs. -/
def parseEmailFallback (subject sender body snippet : String) : EmailRecord :=
  { subject := subject, sender := sender, body := pyOrStr body snippet,
    features := [], is_promotional := false, priority_score := 0 }

/-- `GmailParser.parse_email`: the `try`/`except Exception` structure. The result
type is `Except` to record that the method itself can only raise what its
handler raises — and the handler (a dictionary of already-computed values) raises
nothing, so every path ends in `.ok`. -/
def parseEmail (subject sender body snippet : String) : Except PyErr EmailRecord :=
  match parseEmailInner subject sender body snippet with
  | .ok r => .ok r
  | .error _ => .ok (parseEmailFallback subject sender body snippet)

/-- Total accessor for the (always successful) `parseEmail`. -/
def parseEmailOut (subject sender body snippet : String) : EmailRecord :=
  match parseEmail subject sender body snippet with
  | .ok r => r
  | .error _ => parseEmailFallback subject sender body snippet

/-! The 4-way Decision Engine (`src/api/services/ai_service.py`) -/

/-- The pydantic structured-output model `EmailAction` of the api variant. -/
structure EmailAction where
  action : String
  confidence : ℚ
  reasoning : String
deriving DecidableEq, Repr

/-- `AIService.get_available_categories` of the api variant: the closed 4-way
enumeration. -/
def apiCategories : List String :=
  ["DELETE", "JOB", "READ", "IMPORTANT"]

/-- `AIService._ensure_initialized` of the api variant: raises `ValueError` when
`GEMINI_API_KEY` is absent from both the environment and the `.env` file
(`keyPresent = false`); otherwise the outcome of constructing the Gemini client
(`clientInit`, an opaque external step) — its own `except` clause logs and
re-raises, so any client-construction exception propagates unchanged. -/
def apiEnsureInitialized (keyPresent : Bool) (clientInit : Except PyErr Unit) :
    Except PyErr Unit :=
  if keyPresent then clientInit
  else .error (.valueError "GEMINI_API_KEY missing from environment variables and .env file")

/-- `AIService.categorize_email` of the api variant. `_ensure_initialized()` is
called before the `try` block, so its exceptions propagate to the caller. The
remote Gemini call and response parsing are the opaque parameter `llm`:
`.error` = any exception inside the `try` block (transport failure, timeout);
`.ok none` = `response.parsed` unusable (no parsed object with an `action`);
`.ok (some r)` = a parsed `EmailAction`, whose `action` string is returned
without membership validation. -/
def apiCategorizeEmail (keyPresent : Bool) (clientInit : Except PyErr Unit)
    (llm : Except PyErr (Option EmailAction)) : Except PyErr String :=
  match apiEnsureInitialized keyPresent clientInit with
  | .error e => .error e
  | .ok _ =>
      .ok (match llm with
        | .error _ => "READ"
        | .ok none => "READ"
        | .ok (some result) => result.action)

/-! The 12-way Decision Engine (`src/backend/services/ai_service.py`) -/

/-- `self.categories` of the backend variant: the closed 12-way enumeration. -/
def backendCategories : List String :=
  ["Work", "Personal", "Important", "Newsletter", "Social", "Finance",
   "Shopping", "Travel", "Health", "Education", "Entertainment", "Spam"]

/-- The configuration of the backend `AIService` read from the environment in
`__init__`: the preferred provider name and which provider clients were
constructed. -/
structure BackendConfig where
  defaultProvider : String
  openaiConfigured : Bool
  geminiConfigured : Bool
deriving DecidableEq, Repr

/-- `self.stats` of the backend variant. The average response time is a Python
float, modelled as an exact rational. -/
structure Stats where
  totalRequests : Nat
  successfulCategorizations : Nat
  failedRequests : Nat
  averageResponseTime : ℚ
deriving DecidableEq, Repr

/-- `AIService._categorize_with_openai`: the remote response text is the opaque
parameter (`none` = any exception, caught and turned into `None`); a received
text is stripped and validated against the closed enumeration, anything outside
it becomes `None`. -/
def categorizeWithOpenai (response : Option String) : Option String :=
  match response with
  | none => none
  | some content =>
      let category := pyStripS content
      if category ∈ backendCategories then some category else none

/-- `AIService._categorize_with_gemini`: same validation as the OpenAI path. -/
def categorizeWithGemini (response : Option String) : Option String :=
  match response with
  | none => none
  | some content =>
      let category := pyStripS content
      if category ∈ backendCategories then some category else none

/-- `AIService._get_ai_categorization`: preferred provider if configured, else
the other configured provider, else `None`; its own `try`/`except` turns any
exception into `None` (already reflected in the `none` responses). -/
def getAiCategorization (cfg : BackendConfig) (openaiResp geminiResp : Option String) :
    Option String :=
  if cfg.defaultProvider == "openai" && cfg.openaiConfigured then
    categorizeWithOpenai openaiResp
  else if cfg.defaultProvider == "gemini" && cfg.geminiConfigured then
    categorizeWithGemini geminiResp
  else if cfg.openaiConfigured then categorizeWithOpenai openaiResp
  else if cfg.geminiConfigured then categorizeWithGemini geminiResp
  else none

/-- `AIService._update_response_time`: the local variable the source names
`total_requests` is read from `stats['successful_categorizations']` after the
increment, so the recomputed mean divides by the new success count. -/
def updateResponseTime (st : Stats) (responseTime : ℚ) : Stats :=
  let n : ℚ := st.successfulCategorizations
  { st with averageResponseTime := (st.averageResponseTime * (n - 1) + responseTime) / n }

/-- `AIService.categorize_email` of the backend variant: increments the total
counter on entry; a truthy category is a success (success counter and running
average updated), a falsy one (`None` from every failure path, or an empty
string) is a failure returning the `'Personal'` default; `elapsed` is the
measured wall-clock duration. -/
def backendCategorizeEmail (cfg : BackendConfig) (openaiResp geminiResp : Option String)
    (elapsed : ℚ) (st : Stats) : String × Stats :=
  let st1 : Stats := { st with totalRequests := st.totalRequests + 1 }
  match getAiCategorization cfg openaiResp geminiResp with
  | some category =>
      if category = "" then
        ("Personal", { st1 with failedRequests := st1.failedRequests + 1 })
      else
        let st2 : Stats :=
          { st1 with successfulCategorizations := st1.successfulCategorizations + 1 }
        (category, updateResponseTime st2 elapsed)
  | none => ("Personal", { st1 with failedRequests := st1.failedRequests + 1 })

/-! The keyword fallback strategy (modelled from the spec) -/

def jobKeywords : List String :=
  ["job", "hiring", "recruiter", "application", "interview", "position",
   "career", "linkedin", "indeed", "ziprecruiter"]

def urgencyKeywords : List String :=
  ["urgent", "important", "asap", "otp", "verification", "password",
   "security", "account", "billing", "invoice", "payment", "due"]

def promotionalDeleteKeywords : List String :=
  ["sale", "discount", "offer", "promotion", "marketing", "newsletter",
   "spam", "unsubscribe", "advertisement"]

/-- Modelled from the spec: the deterministic keyword-matching strategy of the
Decision Engine. Its code is not under src/ (the backend service cited by the
spec only returns the default label when no provider is configured; the keyword
rules live in repository code outside src/). Per the spec: a case-insensitive
substring match over the lower-cased concatenation of subject+body+snippet
against fixed keyword lists in strict priority order — job terms first, then
urgency/importance terms, then promotional/delete terms; the first list with
any match wins; no match defaults to the neutral/safe category READ. -/
def keywordCategorize (subject body snippet : String) : String :=
  let content := pyLowerS (subject ++ body ++ snippet)
  if jobKeywords.any (fun k => containsSubS content k) then "JOB"
  else if urgencyKeywords.any (fun k => containsSubS content k) then "IMPORTANT"
  else if promotionalDeleteKeywords.any (fun k => containsSubS content k) then "DELETE"
  else "READ"

/-- A plain-text body of 10001 'a' characters, one character over the default
`MAX_EMAIL_LENGTH` of 10000. -/
def longBody : String :=
  String.mk (List.replicate 10001 'a')

/-! Helper lemmas about the Normalizer. -/

lemma resolve_os_fails : resolveGmailParserName "os" = .error (.nameError "os") := by
  unfold resolveGmailParserName
  rw [if_neg (by decide : ¬ ("os" ∈ gmailParserGlobals))]

lemma cleanBody_of_ne {body : String} (hb : body ≠ "") :
    cleanBody body = .error (.nameError "os") := by
  unfold cleanBody
  rw [if_neg hb, resolve_os_fails]

lemma parseEmailInner_of_ne (s se sn : String) {b : String} (hb : b ≠ "") :
    parseEmailInner s se b sn = .error (.nameError "os") := by
  unfold parseEmailInner
  rw [cleanBody_of_ne hb]

lemma parseEmail_of_ne (s se sn : String) {b : String} (hb : b ≠ "") :
    parseEmail s se b sn = .ok
      { subject := s, sender := se, body := b, features := [],
        is_promotional := false, priority_score := 0 } := by
  unfold parseEmail
  rw [parseEmailInner_of_ne s se sn hb]
  unfold parseEmailFallback pyOrStr
  rw [if_neg hb]

lemma parseEmailOut_of_ne (s se sn : String) {b : String} (hb : b ≠ "") :
    parseEmailOut s se b sn =
      { subject := s, sender := se, body := b, features := [],
        is_promotional := false, priority_score := 0 } := by
  unfold parseEmailOut
  rw [parseEmail_of_ne s se sn hb]

lemma dictGet_extract_subject_length (cs csd bd : String) :
    dictGet (extractFeatures cs csd bd) "subject_length" (.n 0) = .n cs.length := by
  simp [dictGet, extractFeatures, List.find?]

lemma calcPriority_extract (cs csd bd : String) :
    ∃ q, calculatePriorityScore (extractFeatures cs csd bd) = .ok q := by
  unfold calculatePriorityScore
  rw [dictGet_extract_subject_length]
  exact ⟨_, rfl⟩

lemma parseEmail_empty_snip (s se : String) {sn : String} (hsn : sn ≠ "") :
    ∃ q, parseEmail s se "" sn = .ok
      { subject := cleanSubject s, sender := cleanSender se, body := sn,
        features := extractFeatures (cleanSubject s) (cleanSender se) sn,
        is_promotional := isPromotional (cleanSubject s) sn,
        priority_score := q } := by
  obtain ⟨q, hq⟩ := calcPriority_extract (cleanSubject s) (cleanSender se) sn
  refine ⟨q, ?_⟩
  unfold parseEmail parseEmailInner
  rw [show cleanBody "" = .ok "" from rfl]
  dsimp only
  have h1 : (decide (("" : String) = "") && sn != "") = true := by simp [hsn]
  rw [if_pos h1, hq]

lemma parseEmail_empty_empty (s se : String) :
    ∃ q, parseEmail s se "" "" = .ok
      { subject := cleanSubject s, sender := cleanSender se, body := "",
        features := extractFeatures (cleanSubject s) (cleanSender se) "",
        is_promotional := isPromotional (cleanSubject s) "",
        priority_score := q } := by
  obtain ⟨q, hq⟩ := calcPriority_extract (cleanSubject s) (cleanSender se) ""
  refine ⟨q, ?_⟩
  unfold parseEmail parseEmailInner
  rw [show cleanBody "" = .ok "" from rfl]
  dsimp only
  have h1 : ¬ ((decide (("" : String) = "") && ("" : String) != "") = true) := by simp
  rw [if_neg h1, hq]

lemma parseEmailOut_empty_snip (s se : String) {sn : String} (hsn : sn ≠ "") :
    (parseEmailOut s se "" sn).subject = cleanSubject s ∧
      (parseEmailOut s se "" sn).body = sn := by
  obtain ⟨q, hq⟩ := parseEmail_empty_snip s se hsn
  unfold parseEmailOut
  rw [hq]
  exact ⟨rfl, rfl⟩

lemma parseEmailOut_empty_empty (s se : String) :
    (parseEmailOut s se "" "").subject = cleanSubject s ∧
      (parseEmailOut s se "" "").body = "" := by
  obtain ⟨q, hq⟩ := parseEmail_empty_empty s se
  unfold parseEmailOut
  rw [hq]
  exact ⟨rfl, rfl⟩

lemma longBody_length : longBody.length = 10001 := by
  show (List.replicate 10001 'a').length = 10001
  rw [List.length_replicate]

lemma longBody_ne : longBody ≠ "" := by
  intro h
  have := congrArg String.length h
  rw [longBody_length] at this
  simp at this

/-! Claim theorems. -/

/-- C3: for every input (including malformed HTML and missing fields, which are
just strings here), the Normalizer's `parse_email` never raises — the
`try`/`except Exception` returns the `try` result on success and, on any
internal processing error, the best-effort record built from the raw inputs
(subject and sender verbatim, body-or-snippet verbatim, empty feature map,
`is_promotional = false`, `priority_score = 0`) — so every call ends in `.ok`
with all record fields populated. -/
theorem parse_email_never_raises (s se b sn : String) :
    (∀ r, parseEmailInner s se b sn = .ok r → parseEmail s se b sn = .ok r) ∧
    (∀ e, parseEmailInner s se b sn = .error e →
      parseEmail s se b sn = .ok
        { subject := s, sender := se, body := pyOrStr b sn, features := [],
          is_promotional := false, priority_score := 0 }) ∧
    (∃ r, parseEmail s se b sn = .ok r) := by
  refine ⟨?_, ?_, ?_⟩
  · intro r h
    unfold parseEmail
    rw [h]
  · intro e h
    unfold parseEmail
    rw [h]
    rfl
  · unfold parseEmail
    cases h : parseEmailInner s se b sn with
    | ok r => exact ⟨r, rfl⟩
    | error e => exact ⟨_, rfl⟩

/-- C3 witness: at a concrete input whose body is non-empty the `try` block
fails (the `os` NameError) and `parse_email` returns the raw-input fallback
record. -/
theorem parse_email_never_raises_witness :
    parseEmail "Status" "dev@corp.io" "hello world" "" = .ok
      { subject := "Status", sender := "dev@corp.io", body := pyOrStr "hello world" "",
        features := [], is_promotional := false, priority_score := 0 } :=
  (parse_email_never_raises "Status" "dev@corp.io" "hello world" "").2.1
    (.nameError "os") (by rfl)

/-- C5: for every call with a non-empty body, `_clean_body` raises `NameError`
(the name `os` is referenced at line 156 but never imported by the module), so
`parse_email` always returns the error-fallback record: subject and sender
verbatim, body verbatim, empty feature map, `is_promotional = false`,
`priority_score = 0`. -/
theorem parse_email_always_name_error (s se b sn : String) (hb : b ≠ "") :
    parseEmailInner s se b sn = .error (.nameError "os") ∧
    parseEmail s se b sn = .ok
      { subject := s, sender := se, body := b, features := [],
        is_promotional := false, priority_score := 0 } :=
  ⟨parseEmailInner_of_ne s se sn hb, parseEmail_of_ne s se sn hb⟩

/-- C5 witness: a concrete HTML body is returned verbatim, tags intact, with
the empty feature map. -/
theorem parse_email_always_name_error_witness :
    parseEmailInner "Q4" "boss@corp.com" "<p>Hi</p>" "snip" = .error (.nameError "os") ∧
    parseEmail "Q4" "boss@corp.com" "<p>Hi</p>" "snip" = .ok
      { subject := "Q4", sender := "boss@corp.com", body := "<p>Hi</p>", features := [],
        is_promotional := false, priority_score := 0 } :=
  parse_email_always_name_error "Q4" "boss@corp.com" "<p>Hi</p>" "snip" (by decide)

/-- C6 (failing-input evaluation): a plain-text body of 10001 characters —
longer than the default `MAX_EMAIL_LENGTH` of 10000 — is returned verbatim with
length 10001: it is neither truncated to length 10003 nor given a trailing
`"..."`, because `_clean_body` hits the `os` NameError before the truncation
line and `parse_email` falls back to the raw body. -/
theorem truncation_never_happens :
    parseEmail "Weekly digest" "news@site.com" longBody "" = .ok
      { subject := "Weekly digest", sender := "news@site.com", body := longBody,
        features := [], is_promotional := false, priority_score := 0 } ∧
    longBody.length = 10001 :=
  ⟨parseEmail_of_ne "Weekly digest" "news@site.com" "" longBody_ne, longBody_length⟩

lemma stripReplyTagS_of_not {t : String} (h : startsWithReplyTag t = false) :
    stripReplyTagS t = t := by
  unfold startsWithReplyTag at h
  simp only [Bool.or_eq_false_iff] at h
  obtain ⟨⟨h1, h2⟩, h3⟩ := h
  unfold stripReplyTagS stripReplyTagL
  rw [if_neg (by simp [h1]), if_neg (by simp [h2]), if_neg (by simp [h3])]

lemma htmlUnescapeS_of_no_amp {t : String} (h : strHasChar t '&' = false) :
    htmlUnescapeS t = t := by
  simp [htmlUnescapeS, h]

lemma cleanSubject_fixpoint {t : String} (h1 : startsWithReplyTag t = false)
    (h2 : strHasChar t '&' = false) (h3 : collapseWsS t = t) (h4 : pyStripS t = t) :
    cleanSubject t = t := by
  by_cases ht : t = ""
  · rw [ht]
    rfl
  · unfold cleanSubject
    rw [if_neg ht, stripReplyTagS_of_not h1, h3, htmlUnescapeS_of_no_amp h2, h4]

/-- C7 counterexample: normalization is not idempotent on the subject. For the
input subject `"Re: Re: Team sync"` with empty body and snippet, one pass
yields subject `"Re: Team sync"`, and feeding the pass's subject and body back
into `parse_email` yields `"Team sync"` — the second pass strips a further
reply prefix, so the claimed fixed point fails. -/
theorem normalize_not_idempotent :
    (parseEmailOut "Re: Re: Team sync" "a@b.com" "" "").subject = "Re: Team sync" ∧
    (parseEmailOut
        (parseEmailOut "Re: Re: Team sync" "a@b.com" "" "").subject "a@b.com"
        (parseEmailOut "Re: Re: Team sync" "a@b.com" "" "").body "").subject = "Team sync" := by
  obtain ⟨hs1, hb1⟩ := parseEmailOut_empty_empty "Re: Re: Team sync" "a@b.com"
  have e1 : cleanSubject "Re: Re: Team sync" = "Re: Team sync" := by decide
  refine ⟨by rw [hs1, e1], ?_⟩
  rw [hs1, hb1, e1]
  obtain ⟨hs2, _⟩ := parseEmailOut_empty_empty "Re: Team sync" "a@b.com"
  rw [hs2]
  decide

/-- C7 amended: feeding one pass's cleaned subject and body back into
`parse_email` reproduces the body always, and reproduces the whole record when
the body is non-empty (both passes take the fallback path); it reproduces the
subject provided the once-cleaned subject is a fixed point of subject cleaning —
it does not itself begin with a reply/forward prefix, contains no `&` (no
entity material left to decode), and is already whitespace-collapsed and
trimmed. (Without these provisos the subject is not stable: see the
counterexample, where a stacked `"Re: Re:"` loses one more prefix per pass.) -/
theorem normalize_idempotent_amended (s se b sn : String) :
    ((parseEmailOut (parseEmailOut s se b sn).subject se (parseEmailOut s se b sn).body sn).body
        = (parseEmailOut s se b sn).body) ∧
    (b ≠ "" →
      parseEmailOut (parseEmailOut s se b sn).subject se (parseEmailOut s se b sn).body sn
        = parseEmailOut s se b sn) ∧
    (startsWithReplyTag (parseEmailOut s se b sn).subject = false →
     strHasChar (parseEmailOut s se b sn).subject '&' = false →
     collapseWsS (parseEmailOut s se b sn).subject = (parseEmailOut s se b sn).subject →
     pyStripS (parseEmailOut s se b sn).subject = (parseEmailOut s se b sn).subject →
     (parseEmailOut (parseEmailOut s se b sn).subject se (parseEmailOut s se b sn).body sn).subject
        = (parseEmailOut s se b sn).subject) := by
  by_cases hb : b = ""
  case neg =>
    have h1 := parseEmailOut_of_ne s se sn hb
    refine ⟨?_, fun _ => ?_, fun _ _ _ _ => ?_⟩
    · rw [h1]
      exact congrArg EmailRecord.body h1
    · rw [h1]
      exact h1
    · rw [h1]
      exact congrArg EmailRecord.subject h1
  case pos =>
    subst hb
    by_cases hsn : sn = ""
    case pos =>
      subst hsn
      obtain ⟨hs1, hb1⟩ := parseEmailOut_empty_empty s se
      obtain ⟨hs2, hb2⟩ := parseEmailOut_empty_empty (cleanSubject s) se
      refine ⟨?_, fun h => absurd rfl h, ?_⟩
      · rw [hs1, hb1]
        exact hb2
      · intro h1 h2 h3 h4
        rw [hs1] at h1 h2 h3 h4
        rw [hs1, hb1, hs2]
        exact cleanSubject_fixpoint h1 h2 h3 h4
    case neg =>
      obtain ⟨hs1, hb1⟩ := parseEmailOut_empty_snip s se hsn
      have hfall := parseEmailOut_of_ne (cleanSubject s) se sn hsn
      refine ⟨?_, fun h => absurd rfl h, ?_⟩
      · rw [hs1, hb1, hfall]
      · intro _ _ _ _
        rw [hs1, hb1, hfall]

/-- C7 witness: for `"Re: Budget"` with empty body and snippet the once-cleaned
subject `"Budget"` satisfies all the fixed-point provisos, and the second pass
reproduces it. -/
theorem normalize_idempotent_amended_witness :
    (parseEmailOut (parseEmailOut "Re: Budget" "x@y.z" "" "").subject "x@y.z"
        (parseEmailOut "Re: Budget" "x@y.z" "" "").body "").subject
      = (parseEmailOut "Re: Budget" "x@y.z" "" "").subject :=
  (normalize_idempotent_amended "Re: Budget" "x@y.z" "" "").2.2
    (by decide) (by decide) (by decide) (by decide)

/-- C8: subject cleaning strips exactly one leading reply/forward prefix in a
single pass — for every tail `s`, one application turns `"Re: Re: " ++ s` into
`"Re: " ++ s` (one prefix survives), and on the whole pipeline
`"Re: Re: Budget review"` yields `"Re: Budget review"`, not `"Budget review"` —
the documented examples hold (`"Re: Meeting tomorrow"` ↦ `"Meeting tomorrow"`,
`"FWD: Invoice"` ↦ `"Invoice"`), and a subject with no prefix is otherwise
unchanged: cleaning it is exactly whitespace collapsing, then HTML-entity
decoding, then trimming. -/
theorem subject_cleaning_spec :
    (∀ s : String, stripReplyTagS ("Re: Re: " ++ s) = "Re: " ++ s) ∧
    cleanSubject "Re: Re: Budget review" = "Re: Budget review" ∧
    cleanSubject "Re: Meeting tomorrow" = "Meeting tomorrow" ∧
    cleanSubject "FWD: Invoice" = "Invoice" ∧
    (∀ s : String, startsWithReplyTag s = false →
      cleanSubject s = pyStripS (htmlUnescapeS (collapseWsS s))) := by
  refine ⟨?_, by decide, by decide, by decide, ?_⟩
  · intro s
    unfold stripReplyTagS stripReplyTagL
    rw [show ("Re: Re: " ++ s).data = 'R':: 'e':: ':':: ' ':: 'R':: 'e':: ':':: ' '::s.data from rfl]
    have hci : startsWithCI "re:" ('R':: 'e':: ':':: ' ':: 'R':: 'e':: ':':: ' '::s.data) = true := by
      unfold startsWithCI
      rw [show ("re:" : String).data = ['r', 'e', ':'] from rfl]
      simp only [List.map_cons, List.isPrefixOf]
      decide
    rw [if_pos hci]
    rw [show ('R':: 'e':: ':':: ' ':: 'R':: 'e':: ':':: ' '::s.data).drop 3
          = ' ':: 'R':: 'e':: ':':: ' '::s.data from rfl]
    rw [List.dropWhile_cons, if_pos (by decide : pythonIsSpace ' ' = true)]
    rw [List.dropWhile_cons, if_neg (by decide : ¬ (pythonIsSpace 'R' = true))]
    rfl
  · intro s h
    by_cases hs : s = ""
    · subst hs
      decide
    · unfold cleanSubject
      rw [if_neg hs, stripReplyTagS_of_not h]

/-- C8 witness: the no-prefix clause applied at the concrete subject
`"Quarterly  numbers"` (a double interior space): cleaning equals
collapse-then-decode-then-trim. -/
theorem subject_cleaning_spec_witness :
    cleanSubject "Quarterly  numbers"
      = pyStripS (htmlUnescapeS (collapseWsS "Quarterly  numbers")) :=
  subject_cleaning_spec.2.2.2.2 "Quarterly  numbers" (by decide)

/-- C9: for every feature dictionary whose `subject_length` entry (if present)
is numeric or boolean — so that the comparison with 50 does not raise — the
priority score equals the additive heuristic (+0.3 urgent, +0.2 question,
+0.2 money, +0.1 subject length under 50, −0.1 common consumer domain) clamped
to the interval [0, 1]; in particular every returned score lies in [0, 1]. -/
theorem priority_score_spec (f : List (String × FVal)) (k : Int)
    (hk : fvalToInt (dictGet f "subject_length" (.n 0)) = .ok k) :
    calculatePriorityScore f = .ok (max 0 (min 1 (
        (if pyTruthy (dictGet f "has_urgent" (.b false)) then (3/10 : ℚ) else 0) +
        (if pyTruthy (dictGet f "has_question" (.b false)) then (2/10 : ℚ) else 0) +
        (if pyTruthy (dictGet f "contains_money" (.b false)) then (2/10 : ℚ) else 0) +
        (if k < 50 then (1/10 : ℚ) else 0) -
        (if pyTruthy (dictGet f "is_common_domain" (.b false)) then (1/10 : ℚ) else 0)))) ∧
    (∀ q, calculatePriorityScore f = .ok q → 0 ≤ q ∧ q ≤ 1) := by
  have hmain : calculatePriorityScore f = .ok (max 0 (min 1 (
      (if pyTruthy (dictGet f "has_urgent" (.b false)) then (3/10 : ℚ) else 0) +
      (if pyTruthy (dictGet f "has_question" (.b false)) then (2/10 : ℚ) else 0) +
      (if pyTruthy (dictGet f "contains_money" (.b false)) then (2/10 : ℚ) else 0) +
      (if k < 50 then (1/10 : ℚ) else 0) -
      (if pyTruthy (dictGet f "is_common_domain" (.b false)) then (1/10 : ℚ) else 0)))) := by
    unfold calculatePriorityScore
    rw [hk]
    dsimp only
    congr 1
    congr 1
    congr 1
    split_ifs <;> norm_num
  refine ⟨hmain, ?_⟩
  intro q hq
  rw [hmain] at hq
  obtain rfl : _ = q := (Except.ok.injEq _ _).mp hq
  constructor
  · exact le_max_left 0 _
  · exact max_le (by norm_num) (min_le_left 1 _)

/-- C9 witness: a dictionary with only an urgency flag and a long subject
length: the score is 0.3 and lies in [0, 1]. -/
theorem priority_score_spec_witness :
    calculatePriorityScore [("has_urgent", FVal.b true), ("subject_length", FVal.n 60)]
      = .ok (3/10 : ℚ) ∧
    (0 : ℚ) ≤ 3/10 ∧ (3/10 : ℚ) ≤ 1 := by
  have h := priority_score_spec
    [("has_urgent", FVal.b true), ("subject_length", FVal.n 60)] 60 (by rfl)
  have hval : calculatePriorityScore
      [("has_urgent", FVal.b true), ("subject_length", FVal.n 60)] = .ok (3/10 : ℚ) := by
    rw [h.1]
    simp only [show dictGet [("has_urgent", FVal.b true), ("subject_length", FVal.n 60)]
        "has_urgent" (FVal.b false) = FVal.b true from rfl,
      show dictGet [("has_urgent", FVal.b true), ("subject_length", FVal.n 60)]
        "has_question" (FVal.b false) = FVal.b false from rfl,
      show dictGet [("has_urgent", FVal.b true), ("subject_length", FVal.n 60)]
        "contains_money" (FVal.b false) = FVal.b false from rfl,
      show dictGet [("has_urgent", FVal.b true), ("subject_length", FVal.n 60)]
        "is_common_domain" (FVal.b false) = FVal.b false from rfl,
      pyTruthy]
    norm_num [min_def, max_def]
  exact ⟨hval, h.2 (3/10) hval⟩

lemma categorizeWithOpenai_mem {resp : Option String} {cat : String}
    (h : categorizeWithOpenai resp = some cat) : cat ∈ backendCategories := by
  cases resp with
  | none => simp [categorizeWithOpenai] at h
  | some content =>
      unfold categorizeWithOpenai at h
      dsimp only at h
      split_ifs at h with hmem
      obtain rfl := Option.some.inj h
      exact hmem

lemma categorizeWithGemini_mem {resp : Option String} {cat : String}
    (h : categorizeWithGemini resp = some cat) : cat ∈ backendCategories := by
  cases resp with
  | none => simp [categorizeWithGemini] at h
  | some content =>
      unfold categorizeWithGemini at h
      dsimp only at h
      split_ifs at h with hmem
      obtain rfl := Option.some.inj h
      exact hmem

lemma getAiCategorization_mem {cfg : BackendConfig} {oResp gResp : Option String}
    {cat : String} (h : getAiCategorization cfg oResp gResp = some cat) :
    cat ∈ backendCategories := by
  unfold getAiCategorization at h
  split_ifs at h
  · exact categorizeWithOpenai_mem h
  · exact categorizeWithGemini_mem h
  · exact categorizeWithOpenai_mem h
  · exact categorizeWithGemini_mem h

/-- C10: every categorize call increments the total-request counter on entry;
on success (a truthy validated category) the success counter is incremented,
the failure counter is untouched, and the new running average equals
`avg + (elapsed - avg) / successCount` with `successCount` the incremented
success count — i.e. the code's recomputation `(avg*(n-1) + elapsed)/n` agrees
with the incremental-mean formula over exact arithmetic; on failure (a falsy
category) the failure counter is incremented and the average and success
counters are unchanged. -/
theorem stats_update_spec (cfg : BackendConfig) (oResp gResp : Option String)
    (elapsed : ℚ) (st : Stats) :
    ((backendCategorizeEmail cfg oResp gResp elapsed st).2.totalRequests
        = st.totalRequests + 1) ∧
    (∀ cat, getAiCategorization cfg oResp gResp = some cat → cat ≠ "" →
      (backendCategorizeEmail cfg oResp gResp elapsed st).2.successfulCategorizations
          = st.successfulCategorizations + 1 ∧
      (backendCategorizeEmail cfg oResp gResp elapsed st).2.failedRequests
          = st.failedRequests ∧
      (backendCategorizeEmail cfg oResp gResp elapsed st).2.averageResponseTime
          = st.averageResponseTime
            + (elapsed - st.averageResponseTime) / ((st.successfulCategorizations : ℚ) + 1)) ∧
    ((getAiCategorization cfg oResp gResp = none ∨
        getAiCategorization cfg oResp gResp = some "") →
      (backendCategorizeEmail cfg oResp gResp elapsed st).2.failedRequests
          = st.failedRequests + 1 ∧
      (backendCategorizeEmail cfg oResp gResp elapsed st).2.successfulCategorizations
          = st.successfulCategorizations ∧
      (backendCategorizeEmail cfg oResp gResp elapsed st).2.averageResponseTime
          = st.averageResponseTime) := by
  refine ⟨?_, ?_, ?_⟩
  · unfold backendCategorizeEmail
    cases h : getAiCategorization cfg oResp gResp with
    | none => rfl
    | some cat =>
        dsimp only
        split_ifs
        · rfl
        · rfl
  · intro cat hcat hne
    unfold backendCategorizeEmail
    rw [hcat]
    dsimp only
    rw [if_neg hne]
    unfold updateResponseTime
    refine ⟨rfl, rfl, ?_⟩
    dsimp only
    have hcast : ((st.successfulCategorizations + 1 : ℕ) : ℚ)
        = (st.successfulCategorizations : ℚ) + 1 := by push_cast; ring
    rw [hcast]
    have hnz : (st.successfulCategorizations : ℚ) + 1 ≠ 0 := by positivity
    field_simp
    ring
  · intro hfail
    unfold backendCategorizeEmail
    cases hfail with
    | inl h => rw [h]; exact ⟨rfl, rfl, rfl⟩
    | inr h =>
        rw [h]
        dsimp only
        rw [if_pos rfl]
        exact ⟨rfl, rfl, rfl⟩

/-- C10 witness: a concrete successful call on fresh statistics: total and
success counters go to 1 and the average becomes `0 + (2 - 0) / 1`. -/
theorem stats_update_spec_witness :
    (backendCategorizeEmail ⟨"openai", true, false⟩ (some "Work") none 2 ⟨0, 0, 0, 0⟩).2.totalRequests = 1 ∧
    (backendCategorizeEmail ⟨"openai", true, false⟩ (some "Work") none 2 ⟨0, 0, 0, 0⟩).2.successfulCategorizations = 1 ∧
    (backendCategorizeEmail ⟨"openai", true, false⟩ (some "Work") none 2 ⟨0, 0, 0, 0⟩).2.averageResponseTime
      = 0 + (2 - 0) / ((0 : ℚ) + 1) := by
  have h := stats_update_spec ⟨"openai", true, false⟩ (some "Work") none 2 ⟨0, 0, 0, 0⟩
  obtain ⟨hsucc, _, havg⟩ := h.2.1 "Work" (by rfl) (by decide)
  exact ⟨h.1, hsucc, by simpa using havg⟩

/-- C1 counterexample: in the 4-way api variant, with the LLM API key absent
(`GEMINI_API_KEY` missing from both the environment and the `.env` file),
`categorize_email` calls `_ensure_initialized()` before its `try` block and the
`ValueError` raised there propagates to the caller — the engine raises instead
of returning a member of the enumeration, refuting the claim for that
configuration. -/
theorem categorize_raises_without_key :
    apiCategorizeEmail false (.ok ()) (.ok none)
      = .error (.valueError
          "GEMINI_API_KEY missing from environment variables and .env file") := rfl

/-- C1 amended: the claim holds of the 12-way backend variant — for every
configuration and provider response, categorize returns a member of the closed
12-way enumeration and every failure degrades to `'Personal'` without raising.
In the 4-way api variant, categorize raises when the API key is absent (or when
client construction fails, whose exception is re-raised); once initialization
succeeds it never raises: every internal failure or unparsable response
degrades to `'READ'`, and a parsed response is returned as its action string. -/
theorem categorize_total_amended :
    (∀ (cfg : BackendConfig) (oResp gResp : Option String) (elapsed : ℚ) (st : Stats),
      (backendCategorizeEmail cfg oResp gResp elapsed st).1 ∈ backendCategories) ∧
    (∀ (cfg : BackendConfig) (oResp gResp : Option String) (elapsed : ℚ) (st : Stats),
      getAiCategorization cfg oResp gResp = none →
      (backendCategorizeEmail cfg oResp gResp elapsed st).1 = "Personal") ∧
    (∀ (clientInit : Except PyErr Unit) (llm : Except PyErr (Option EmailAction)),
      apiCategorizeEmail false clientInit llm
        = .error (.valueError
            "GEMINI_API_KEY missing from environment variables and .env file")) ∧
    (∀ llm : Except PyErr (Option EmailAction),
      ∃ c, apiCategorizeEmail true (.ok ()) llm = .ok c) ∧
    (∀ e : PyErr, apiCategorizeEmail true (.ok ()) (.error e) = .ok "READ") ∧
    (apiCategorizeEmail true (.ok ()) (.ok none) = .ok "READ") := by
  refine ⟨?_, ?_, fun _ _ => rfl, ?_, fun _ => rfl, rfl⟩
  · intro cfg oResp gResp elapsed st
    unfold backendCategorizeEmail
    cases h : getAiCategorization cfg oResp gResp with
    | none =>
        show "Personal" ∈ backendCategories
        decide
    | some cat =>
        dsimp only
        split_ifs
        · show "Personal" ∈ backendCategories
          decide
        · exact getAiCategorization_mem h
  · intro cfg oResp gResp elapsed st h
    unfold backendCategorizeEmail
    rw [h]
  · intro llm
    cases llm with
    | error e => exact ⟨"READ", rfl⟩
    | ok p =>
        cases p with
        | none => exact ⟨"READ", rfl⟩
        | some r => exact ⟨r.action, rfl⟩

/-- C1 witness: with no provider configured the backend engine returns the
default label `'Personal'`. -/
theorem categorize_total_amended_witness :
    (backendCategorizeEmail ⟨"openai", false, false⟩ none none 1 ⟨0, 0, 0, 0⟩).1
      = "Personal" :=
  categorize_total_amended.2.1 ⟨"openai", false, false⟩ none none 1 ⟨0, 0, 0, 0⟩ rfl

/-- C4 counterexample: in the 4-way api variant a parsed response whose action
is `"BANANA"` — outside the closed enumeration — is returned verbatim instead
of the default label: the api strategy does not validate enumeration
membership. -/
theorem llm_validation_counterexample :
    apiCategorizeEmail true (.ok ()) (.ok (some ⟨"BANANA", 9/10, "spurious"⟩))
        = .ok "BANANA" ∧
      "BANANA" ∉ apiCategories :=
  ⟨rfl, by decide⟩

/-- C4 amended: the backend (12-way) strategy validates: any category it
reports is a member of the closed enumeration, a stripped response text outside
the enumeration becomes `None` in both provider paths, and a `None` outcome
makes categorize return the default `'Personal'`. The api (4-way) strategy
falls back to `'READ'` only when the response cannot be parsed; a parsed
response's action string is returned without membership validation. -/
theorem llm_validation_amended :
    (∀ (cfg : BackendConfig) (oResp gResp : Option String) (cat : String),
      getAiCategorization cfg oResp gResp = some cat → cat ∈ backendCategories) ∧
    (∀ c : String, pyStripS c ∉ backendCategories →
      categorizeWithOpenai (some c) = none ∧ categorizeWithGemini (some c) = none) ∧
    (∀ (cfg : BackendConfig) (oResp gResp : Option String) (elapsed : ℚ) (st : Stats),
      getAiCategorization cfg oResp gResp = none →
      (backendCategorizeEmail cfg oResp gResp elapsed st).1 = "Personal") ∧
    (apiCategorizeEmail true (.ok ()) (.ok none) = .ok "READ") ∧
    (∀ r : EmailAction, apiCategorizeEmail true (.ok ()) (.ok (some r)) = .ok r.action) := by
  refine ⟨fun _ _ _ _ h => getAiCategorization_mem h, ?_, ?_, rfl, fun _ => rfl⟩
  · intro c hc
    constructor
    · unfold categorizeWithOpenai
      dsimp only
      rw [if_neg hc]
    · unfold categorizeWithGemini
      dsimp only
      rw [if_neg hc]
  · intro cfg oResp gResp elapsed st h
    unfold backendCategorizeEmail
    rw [h]

/-- C4 witness: the out-of-enumeration response `"Junk"` is mapped to `None` by
both backend provider paths. -/
theorem llm_validation_amended_witness :
    categorizeWithOpenai (some "Junk") = none ∧ categorizeWithGemini (some "Junk") = none :=
  llm_validation_amended.2.1 "Junk" (by decide)

/-- C2 (spec-modelled): the keyword-matching strategy is deterministic and
evaluates its fixed keyword lists in strict priority order over the lower-cased
concatenation of subject, body and snippet: any job-keyword match — in
particular the substring `"interview"` — wins regardless of urgency or delete
keywords also present; with no job match an urgency match gives IMPORTANT; with
neither a delete match gives DELETE; when no keyword of any list matches the
result is the neutral/safe default `"READ"`; and the result is always one of
the four labels. -/
theorem keyword_strategy_spec (subject body snippet : String) :
    (containsSubS (pyLowerS (subject ++ body ++ snippet)) "interview" = true →
      keywordCategorize subject body snippet = "JOB") ∧
    (jobKeywords.any (fun k => containsSubS (pyLowerS (subject ++ body ++ snippet)) k) = false →
      urgencyKeywords.any (fun k => containsSubS (pyLowerS (subject ++ body ++ snippet)) k) = true →
      keywordCategorize subject body snippet = "IMPORTANT") ∧
    (jobKeywords.any (fun k => containsSubS (pyLowerS (subject ++ body ++ snippet)) k) = false →
      urgencyKeywords.any (fun k => containsSubS (pyLowerS (subject ++ body ++ snippet)) k) = false →
      promotionalDeleteKeywords.any
        (fun k => containsSubS (pyLowerS (subject ++ body ++ snippet)) k) = true →
      keywordCategorize subject body snippet = "DELETE") ∧
    ((jobKeywords ++ urgencyKeywords ++ promotionalDeleteKeywords).all
        (fun k => !containsSubS (pyLowerS (subject ++ body ++ snippet)) k) = true →
      keywordCategorize subject body snippet = "READ") ∧
    keywordCategorize subject body snippet ∈ ["JOB", "IMPORTANT", "DELETE", "READ"] := by
  refine ⟨?_, ?_, ?_, ?_, ?_⟩
  · intro h
    unfold keywordCategorize
    rw [if_pos]
    exact List.any_eq_true.mpr ⟨"interview", by decide, h⟩
  · intro hj hu
    unfold keywordCategorize
    dsimp only
    rw [hj, hu]
    rfl
  · intro hj hu hd
    unfold keywordCategorize
    dsimp only
    rw [hj, hu, hd]
    rfl
  · intro h
    rw [List.all_eq_true] at h
    have hnone : ∀ k, k ∈ jobKeywords ∨ k ∈ urgencyKeywords ∨ k ∈ promotionalDeleteKeywords →
        containsSubS (pyLowerS (subject ++ body ++ snippet)) k = false := by
      intro k hk
      have hmem : k ∈ jobKeywords ++ urgencyKeywords ++ promotionalDeleteKeywords := by
        simp [List.mem_append]
        tauto
      have := h k hmem
      simpa using this
    unfold keywordCategorize
    rw [if_neg, if_neg, if_neg]
    · simp only [List.any_eq_true, not_exists]
      rintro k ⟨hk, hc⟩
      rw [hnone k (Or.inr (Or.inr hk))] at hc
      cases hc
    · simp only [List.any_eq_true, not_exists]
      rintro k ⟨hk, hc⟩
      rw [hnone k (Or.inr (Or.inl hk))] at hc
      cases hc
    · simp only [List.any_eq_true, not_exists]
      rintro k ⟨hk, hc⟩
      rw [hnone k (Or.inl hk)] at hc
      cases hc
  · unfold keywordCategorize
    dsimp only
    split_ifs <;> decide

/-- C2 witness: content containing both the job keyword `"interview"` and the
delete keyword `"unsubscribe"` is categorized as JOB (job rules first). -/
theorem keyword_strategy_spec_witness :
    keywordCategorize "Interview invitation" "" "please unsubscribe now" = "JOB" :=
  (keyword_strategy_spec "Interview invitation" "" "please unsubscribe now").1 (by decide)
